import Mathlib

set_option linter.unusedVariables false

/-!
Shallow embedding of `d3rlpy/preprocessing/reward_scalers.py`.

Numeric values are modelled by exact rationals `ℚ` (the Python code works on
floating-point scalars/arrays; the claims under study concern the algebraic
formulas, fitting statistics, parameter lifecycle and registry behaviour, all
of which are stated over the representable numeric range with exact
arithmetic). An `Episode` contributes only its reward sequence, modelled as
`List ℚ`. Python operations that raise (`assert` failures, `None`
arithmetic, `np.min`/`np.max` on an empty array, `raise NotImplementedError`)
are modelled with `Option`/`Except`.
-/

/-- An episode is modelled by its ordered reward sequence (`episode.rewards`);
this is the only field the reward scalers read. -/
abbrev Episode := List ℚ

/-- `episode.rewards[1:]` concatenated over all episodes: the reward sample
that `MinMaxRewardScaler.fit` and `StandardRewardScaler.fit` accumulate
(`rewards += episode.rewards[1:].tolist()`). -/
def tailRewards (episodes : List Episode) : List ℚ :=
  episodes.flatMap (fun ep => ep.drop 1)

/-! ## MultiplyRewardScaler -/

/-- State of `MultiplyRewardScaler`: the single optional `_multiplier`
parameter (`None` when unconfigured). -/
structure MultiplyRewardScaler where
  multiplier : Option ℚ
  deriving DecidableEq, Repr

namespace MultiplyRewardScaler

/-- `__init__(self, multiplier=None)`. -/
def init (multiplier : Option ℚ) : MultiplyRewardScaler :=
  ⟨multiplier⟩

/-- `fit`: never touches the parameter; warns (`LOG.warning`) when
`_multiplier is None`. Returns the (unchanged) state and whether the
warning fired. -/
def fit (s : MultiplyRewardScaler) (episodes : List Episode) :
    MultiplyRewardScaler × Bool :=
  (s, s.multiplier.isNone)

/-- `transform`: `self._multiplier * reward`; with `_multiplier is None`
Python raises a `TypeError`, modelled as `none`. -/
def transform (s : MultiplyRewardScaler) (reward : ℚ) : Option ℚ :=
  s.multiplier.map (fun m => m * reward)

/-- `reverse_transform`: `reward / self._multiplier`. -/
def reverse_transform (s : MultiplyRewardScaler) (reward : ℚ) : Option ℚ :=
  s.multiplier.map (fun m => reward / m)

/-- `transform_numpy`: `self._multiplier * reward` on a flat array. -/
def transform_numpy (s : MultiplyRewardScaler) (reward : List ℚ) :
    Option (List ℚ) :=
  s.multiplier.map (fun m => reward.map (fun r => m * r))

end MultiplyRewardScaler

/-! ## ClipRewardScaler -/

/-- `clamp` with optional bounds, as in `torch.Tensor.clamp(low, high)` and
`np.clip(reward, low, high)`: the lower bound is applied first, then the
upper bound; an absent bound leaves that side unconstrained. -/
def clampOpt (r : ℚ) (low high : Option ℚ) : ℚ :=
  let lo := match low with
    | some l => max l r
    | none => r
  match high with
  | some h => min h lo
  | none => lo

/-- State of `ClipRewardScaler`: optional `_low`/`_high` bounds and the
required `_multiplier` (default `1.0`). -/
structure ClipRewardScaler where
  low : Option ℚ
  high : Option ℚ
  multiplier : ℚ
  deriving DecidableEq, Repr

namespace ClipRewardScaler

/-- `__init__(self, low=None, high=None, multiplier=1.0)`. -/
def init (low high : Option ℚ) (multiplier : ℚ) : ClipRewardScaler :=
  ⟨low, high, multiplier⟩

/-- `fit`: never touches the parameters; warns when both `_low` and `_high`
are `None`. Returns the (unchanged) state and whether the warning fired. -/
def fit (s : ClipRewardScaler) (episodes : List Episode) :
    ClipRewardScaler × Bool :=
  (s, s.low.isNone && s.high.isNone)

/-- `transform`: `self._multiplier * reward.clamp(self._low, self._high)`. -/
def transform (s : ClipRewardScaler) (reward : ℚ) : ℚ :=
  s.multiplier * clampOpt reward s.low s.high

/-- `reverse_transform`: `reward / self._multiplier`; the clipping is not
undone. -/
def reverse_transform (s : ClipRewardScaler) (reward : ℚ) : ℚ :=
  reward / s.multiplier

/-- `transform_numpy`: `self._multiplier * np.clip(reward, self._low,
self._high)` element-wise. -/
def transform_numpy (s : ClipRewardScaler) (reward : List ℚ) : List ℚ :=
  reward.map (fun r => s.multiplier * clampOpt r s.low s.high)

end ClipRewardScaler

/-! ## MinMaxRewardScaler -/

/-- State of `MinMaxRewardScaler`: optional `_minimum`/`_maximum` statistics
and the required `_multiplier` (default `1.0`). -/
structure MinMaxRewardScaler where
  minimum : Option ℚ
  maximum : Option ℚ
  multiplier : ℚ
  deriving DecidableEq, Repr

namespace MinMaxRewardScaler

/-- `fit(self, episodes)`: an early no-op return when both statistics are
already present; otherwise gathers `episode.rewards[1:]` across episodes and
sets `_minimum`/`_maximum` to `np.min`/`np.max` of that sample. `np.min` and
`np.max` raise on an empty sample, modelled as `none`. -/
def fit (s : MinMaxRewardScaler) (episodes : List Episode) :
    Option MinMaxRewardScaler :=
  if s.minimum.isSome && s.maximum.isSome then
    some s
  else
    let rewards := tailRewards episodes
    match rewards.min?, rewards.max? with
    | some mn, some mx => some { s with minimum := some mn, maximum := some mx }
    | _, _ => none

/-- `__init__(self, dataset=None, minimum=None, maximum=None,
multiplier=1.0)`: starts unset, fits on the dataset when one is given, else
accepts `minimum`/`maximum` only when both are supplied. -/
def init (dataset : Option (List Episode)) (minimum maximum : Option ℚ)
    (multiplier : ℚ) : Option MinMaxRewardScaler :=
  let s : MinMaxRewardScaler := ⟨none, none, multiplier⟩
  match dataset with
  | some ds => s.fit ds
  | none =>
    match minimum, maximum with
    | some mn, some mx => some ⟨some mn, some mx, multiplier⟩
    | _, _ => some s

/-- `transform`: asserts both statistics are set (modelled as `none`
otherwise), then `self._multiplier * (reward - self._minimum) / base` with
`base = self._maximum - self._minimum`. -/
def transform (s : MinMaxRewardScaler) (reward : ℚ) : Option ℚ :=
  match s.minimum, s.maximum with
  | some mn, some mx =>
    let base := mx - mn
    some (s.multiplier * (reward - mn) / base)
  | _, _ => none

/-- `reverse_transform`: asserts both statistics are set, then
`reward * base / self._multiplier + self._minimum`. -/
def reverse_transform (s : MinMaxRewardScaler) (reward : ℚ) : Option ℚ :=
  match s.minimum, s.maximum with
  | some mn, some mx =>
    let base := mx - mn
    some (reward * base / s.multiplier + mn)
  | _, _ => none

/-- `transform_numpy`: same assertion and formula as `transform`, applied
element-wise to a flat array. -/
def transform_numpy (s : MinMaxRewardScaler) (reward : List ℚ) :
    Option (List ℚ) :=
  match s.minimum, s.maximum with
  | some mn, some mx =>
    let base := mx - mn
    some (reward.map (fun r => s.multiplier * (r - mn) / base))
  | _, _ => none

end MinMaxRewardScaler

/-! ## StandardRewardScaler -/

/-- State of `StandardRewardScaler`: optional `_mean`/`_std` statistics, the
`_eps` stabiliser (default `1e-3`) and the `_multiplier` (default `1.0`). -/
structure StandardRewardScaler where
  mean : Option ℚ
  std : Option ℚ
  eps : ℚ
  multiplier : ℚ
  deriving DecidableEq, Repr

namespace StandardRewardScaler

/-- `fit(self, episodes)`: early no-op return when both statistics are
present; otherwise gathers `episode.rewards[1:]` and sets `_mean` to
`np.mean(rewards)` and `_std` to `np.std(rewards)`. The square root taken by
`np.std` has no exact rational counterpart, so `fit` is parametrised by the
square-root primitive `sqrtFn`; `np.mean`/`np.std` of an empty sample yield
NaN, modelled as `none`. -/
def fit (s : StandardRewardScaler) (sqrtFn : ℚ → ℚ)
    (episodes : List Episode) : Option StandardRewardScaler :=
  if s.mean.isSome && s.std.isSome then
    some s
  else
    let rewards := tailRewards episodes
    match rewards with
    | [] => none
    | _ :: _ =>
      let m := rewards.sum / (rewards.length : ℚ)
      let variance :=
        (rewards.map (fun r => (r - m) ^ 2)).sum / (rewards.length : ℚ)
      some { s with mean := some m, std := some (sqrtFn variance) }

/-- `__init__(self, dataset=None, mean=None, std=None, eps=1e-3,
multiplier=1.0)`: starts unset, fits on the dataset when one is given, else
accepts `mean`/`std` only when both are supplied. -/
def init (sqrtFn : ℚ → ℚ) (dataset : Option (List Episode))
    (mean std : Option ℚ) (eps multiplier : ℚ) : Option StandardRewardScaler :=
  let s : StandardRewardScaler := ⟨none, none, eps, multiplier⟩
  match dataset with
  | some ds => s.fit sqrtFn ds
  | none =>
    match mean, std with
    | some mu, some sd => some ⟨some mu, some sd, eps, multiplier⟩
    | _, _ => some s

/-- `transform`: asserts both statistics are set, then
`self._multiplier * (reward - self._mean) / nonzero_std` with
`nonzero_std = self._std + self._eps`. -/
def transform (s : StandardRewardScaler) (reward : ℚ) : Option ℚ :=
  match s.mean, s.std with
  | some mu, some sd =>
    let nonzero_std := sd + s.eps
    some (s.multiplier * (reward - mu) / nonzero_std)
  | _, _ => none

/-- `reverse_transform`: asserts both statistics are set, then
`reward * (self._std + self._eps) / self._multiplier + self._mean`. -/
def reverse_transform (s : StandardRewardScaler) (reward : ℚ) : Option ℚ :=
  match s.mean, s.std with
  | some mu, some sd => some (reward * (sd + s.eps) / s.multiplier + mu)
  | _, _ => none

/-- `transform_numpy`: same assertion and formula as `transform`, applied
element-wise to a flat array. -/
def transform_numpy (s : StandardRewardScaler) (reward : List ℚ) :
    Option (List ℚ) :=
  match s.mean, s.std with
  | some mu, some sd =>
    let nonzero_std := sd + s.eps
    some (reward.map (fun r => s.multiplier * (r - mu) / nonzero_std))
  | _, _ => none

end StandardRewardScaler

/-! ## fit_with_env -/

/-- A `gym.Env` handle; the reward scalers never inspect it. -/
structure GymEnv where
  env_id : Nat
  deriving DecidableEq, Repr

/-- A reward-scaler instance, for properties quantified over every concrete
strategy of the module. -/
inductive RewardScalerInst where
  | multiply (s : MultiplyRewardScaler)
  | clip (s : ClipRewardScaler)
  | minMax (s : MinMaxRewardScaler)
  | standard (s : StandardRewardScaler)
  deriving DecidableEq, Repr

/-- `RewardScaler.fit_with_env`: raises
`NotImplementedError("Please initialize with dataset.")`; no subclass
overrides it, so every strategy fails here and no state is produced. -/
def fit_with_env (s : RewardScalerInst) (env : GymEnv) :
    Except String RewardScalerInst :=
  Except.error "Please initialize with dataset."

/-! ## Registry -/

/-- The concrete scaler classes of the module, together with the base
`RewardScaler` class (whose `TYPE` is `"none"`). -/
inductive ScalerClass where
  | base
  | multiplyCls
  | clipCls
  | minMaxCls
  | standardCls
  deriving DecidableEq, Repr

/-- The `TYPE` class variable of each class. -/
def ScalerClass.TYPE : ScalerClass → String
  | .base => "none"
  | .multiplyCls => "multiply"
  | .clipCls => "clip"
  | .minMaxCls => "min_max"
  | .standardCls => "standard"

/-- The registry `REWARD_SCALER_LIST`, as an insertion-ordered association
list from `TYPE` identifiers to classes. -/
abbrev Registry := List (String × ScalerClass)

/-- `register_reward_scaler(cls)`: asserts `cls.TYPE` is not already
registered (modelled as `none` on the duplicate), then stores
`REWARD_SCALER_LIST[cls.TYPE] = cls`. -/
def register_reward_scaler (registry : Registry) (cls : ScalerClass) :
    Option Registry :=
  let is_registered := registry.any (fun p => p.1 == cls.TYPE)
  if is_registered then none
  else some (registry ++ [(cls.TYPE, cls)])

/-- `create_reward_scaler(name, **kwargs)`: asserts `name` is registered
(modelled as `none` otherwise) and returns the class found for `name`
(instantiation with the keyword arguments is the constructors above). -/
def create_reward_scaler (registry : Registry) (name : String) :
    Option ScalerClass :=
  (registry.find? (fun p => p.1 == name)).map (fun p => p.2)

/-- The module-initialization registration phase: the four
`register_reward_scaler(...)` calls at the bottom of the file, in source
order, starting from the empty `REWARD_SCALER_LIST`. -/
def initRegistry : Option Registry :=
  (register_reward_scaler [] .multiplyCls).bind (fun r1 =>
    (register_reward_scaler r1 .clipCls).bind (fun r2 =>
      (register_reward_scaler r2 .minMaxCls).bind (fun r3 =>
        register_reward_scaler r3 .standardCls)))

/-- The registry contents after the module-initialization phase. -/
def loadedRegistry : Registry :=
  [("multiply", .multiplyCls), ("clip", .clipCls),
   ("min_max", .minMaxCls), ("standard", .standardCls)]

/-! ## Helper lemmas -/

/-- `List.min?` of a rational list returns exactly the sample minimum. -/
theorem rat_min?_eq_some_iff (xs : List ℚ) (a : ℚ) :
    xs.min? = some a ↔ a ∈ xs ∧ ∀ b ∈ xs, a ≤ b := by
  have anti : Std.Antisymm (fun x1 x2 : ℚ => x1 ≤ x2) :=
    ⟨fun h h2 => le_antisymm h h2⟩
  exact List.min?_eq_some_iff (le_refl) (fun a b => min_choice a b)
    (fun a b c => le_min_iff)

/-- `List.max?` of a rational list returns exactly the sample maximum. -/
theorem rat_max?_eq_some_iff (xs : List ℚ) (a : ℚ) :
    xs.max? = some a ↔ a ∈ xs ∧ ∀ b ∈ xs, b ≤ a := by
  have anti : Std.Antisymm (fun x1 x2 : ℚ => x1 ≤ x2) :=
    ⟨fun h h2 => le_antisymm h h2⟩
  exact List.max?_eq_some_iff (le_refl) (fun a b => max_choice a b)
    (fun a b c => max_le_iff)

/-- `mapM` over `Option` with a function that always succeeds is `map`. -/
theorem mapM_option_of_map {α β : Type} (f : α → β) (l : List α) :
    l.mapM (fun a => some (f a)) = some (l.map f) := by
  induction l with
  | nil => rfl
  | cons a as ih => rw [List.mapM_cons, ih]; rfl

/-! ## Claims -/

/-- C1: for the Multiply, Min-Max and Standardize strategies with parameters
set and non-degenerate (multiplier nonzero, maximum different from minimum,
std + eps nonzero), `reverse_transform (transform r) = r` for every reward
`r`. -/
theorem C1_roundtrip_law :
    (∀ (m r : ℚ), m ≠ 0 →
      ((MultiplyRewardScaler.init (some m)).transform r).bind
        (MultiplyRewardScaler.init (some m)).reverse_transform = some r) ∧
    (∀ (mn mx mult r : ℚ), mult ≠ 0 → mx ≠ mn →
      ((⟨some mn, some mx, mult⟩ : MinMaxRewardScaler).transform r).bind
        (⟨some mn, some mx, mult⟩ : MinMaxRewardScaler).reverse_transform
        = some r) ∧
    (∀ (mu sd eps mult r : ℚ), mult ≠ 0 → sd + eps ≠ 0 →
      ((⟨some mu, some sd, eps, mult⟩ : StandardRewardScaler).transform r).bind
        (⟨some mu, some sd, eps, mult⟩ : StandardRewardScaler).reverse_transform
        = some r) := by
  refine ⟨fun m r hm => ?_, fun mn mx mult r hmult hne => ?_,
    fun mu sd eps mult r hmult hsd => ?_⟩
  · simp only [MultiplyRewardScaler.init, MultiplyRewardScaler.transform,
      MultiplyRewardScaler.reverse_transform, Option.map, Option.bind]
    congr 1
    field_simp
  · have hbase : mx - mn ≠ 0 := sub_ne_zero.mpr hne
    simp only [MinMaxRewardScaler.transform,
      MinMaxRewardScaler.reverse_transform, Option.bind]
    congr 1
    field_simp
  · simp only [StandardRewardScaler.transform,
      StandardRewardScaler.reverse_transform, Option.bind]
    congr 1
    field_simp

/-- C1 witness: the round trip at concrete non-degenerate parameters. -/
theorem C1_roundtrip_law_witness :
    ((MultiplyRewardScaler.init (some 10)).transform 3).bind
      (MultiplyRewardScaler.init (some 10)).reverse_transform = some 3 ∧
    ((⟨some 0, some 10, 1⟩ : MinMaxRewardScaler).transform 5).bind
      (⟨some 0, some 10, 1⟩ : MinMaxRewardScaler).reverse_transform = some 5 ∧
    ((⟨some 2, some 3, 1/1000, 1⟩ : StandardRewardScaler).transform 5).bind
      (⟨some 2, some 3, 1/1000, 1⟩ : StandardRewardScaler).reverse_transform
      = some 5 :=
  ⟨C1_roundtrip_law.1 10 3 (by norm_num),
   C1_roundtrip_law.2.1 0 10 1 5 (by norm_num) (by norm_num),
   C1_roundtrip_law.2.2 2 3 (1/1000) 1 5 (by norm_num) (by norm_num)⟩

/-- C2: Min-Max `fit` on an unfitted instance computes `_minimum` and
`_maximum` as the sample minimum and maximum of the concatenation of every
episode's rewards with the first (index-0) reward excluded; on the corpus
`{[0, 3, -2], [0, 7]}` it yields `minimum = -2` and `maximum = 7`. -/
theorem C2_minmax_fit_sample_extrema :
    (∀ (mult : ℚ) (episodes : List Episode),
       tailRewards episodes ≠ [] →
       ∃ mn mx : ℚ,
         MinMaxRewardScaler.fit ⟨none, none, mult⟩ episodes =
           some ⟨some mn, some mx, mult⟩ ∧
         mn ∈ tailRewards episodes ∧ (∀ x ∈ tailRewards episodes, mn ≤ x) ∧
         mx ∈ tailRewards episodes ∧ (∀ x ∈ tailRewards episodes, x ≤ mx)) ∧
    MinMaxRewardScaler.fit ⟨none, none, 1⟩ [[0, 3, -2], [0, 7]] =
      some ⟨some (-2), some 7, 1⟩ := by
  constructor
  · intro mult episodes hne
    obtain ⟨a, as, ha⟩ := List.exists_cons_of_ne_nil hne
    obtain ⟨mn, hmn⟩ : ∃ mn, (tailRewards episodes).min? = some mn :=
      ⟨as.foldl min a, by rw [ha]; rfl⟩
    obtain ⟨mx, hmx⟩ : ∃ mx, (tailRewards episodes).max? = some mx :=
      ⟨as.foldl max a, by rw [ha]; rfl⟩
    obtain ⟨hmn_mem, hmn_le⟩ := (rat_min?_eq_some_iff _ _).mp hmn
    obtain ⟨hmx_mem, hmx_ge⟩ := (rat_max?_eq_some_iff _ _).mp hmx
    refine ⟨mn, mx, ?_, hmn_mem, hmn_le, hmx_mem, hmx_ge⟩
    simp only [MinMaxRewardScaler.fit, Option.isSome_none, Bool.false_and,
      Bool.false_eq_true, if_false, hmn, hmx]
  · decide

/-- C2 witness: the general sample-extrema statement applied to the concrete
corpus `{[0, 3, -2], [0, 7]}`. -/
theorem C2_minmax_fit_sample_extrema_witness :
    ∃ mn mx : ℚ,
      MinMaxRewardScaler.fit ⟨none, none, 1⟩ [[0, 3, -2], [0, 7]] =
        some ⟨some mn, some mx, 1⟩ ∧
      mn ∈ tailRewards [[0, 3, -2], [0, 7]] ∧
      (∀ x ∈ tailRewards [[0, 3, -2], [0, 7]], mn ≤ x) ∧
      mx ∈ tailRewards [[0, 3, -2], [0, 7]] ∧
      (∀ x ∈ tailRewards [[0, 3, -2], [0, 7]], x ≤ mx) :=
  C2_minmax_fit_sample_extrema.1 1 [[0, 3, -2], [0, 7]] (by decide)

/-- C3 counterexample: the module-initialization phase registers only the
four concrete scaler classes, so the registry holds no entry under `"none"`
and `create_reward_scaler("none")` fails its assertion. -/
theorem C3_none_not_registered_counterexample :
    initRegistry = some loadedRegistry ∧
    create_reward_scaler loadedRegistry "none" = none := by
  constructor
  · decide
  · decide

/-- C3 (amended): after module initialization the registry contains exactly
the identifiers `"multiply"`, `"clip"`, `"min_max"` and `"standard"`, so
`create` succeeds for each of these names; `create` with any other name —
including `"none"` — fails fatally. -/
theorem C3_registry_contents :
    initRegistry = some loadedRegistry ∧
    create_reward_scaler loadedRegistry "multiply" = some .multiplyCls ∧
    create_reward_scaler loadedRegistry "clip" = some .clipCls ∧
    create_reward_scaler loadedRegistry "min_max" = some .minMaxCls ∧
    create_reward_scaler loadedRegistry "standard" = some .standardCls ∧
    ∀ name : String, name ≠ "multiply" → name ≠ "clip" → name ≠ "min_max" →
      name ≠ "standard" → create_reward_scaler loadedRegistry name = none := by
  refine ⟨by decide, by decide, by decide, by decide, by decide, ?_⟩
  intro name h1 h2 h3 h4
  simp only [create_reward_scaler, loadedRegistry, List.find?]
  rw [show ("multiply" == name) = false from beq_eq_false_iff_ne.mpr h1.symm,
    show ("clip" == name) = false from beq_eq_false_iff_ne.mpr h2.symm,
    show ("min_max" == name) = false from beq_eq_false_iff_ne.mpr h3.symm,
    show ("standard" == name) = false from beq_eq_false_iff_ne.mpr h4.symm]
  rfl

/-- C3 witness: `create` with the unregistered name `"unknown_name"`
fails. -/
theorem C3_registry_contents_witness :
    create_reward_scaler loadedRegistry "unknown_name" = none :=
  C3_registry_contents.2.2.2.2.2 "unknown_name" (by decide) (by decide)
    (by decide) (by decide)

/-- C4: `fit` never changes parameters that are already present. For
Multiply and Clip, `fit` never changes parameters at all; for Min-Max and
Standardize, `fit` returns the state unchanged when both statistics are set,
and a state produced by a successful `fit` absorbs every further `fit`
call. -/
theorem C4_fit_idempotent :
    (∀ (s : MultiplyRewardScaler) (episodes : List Episode),
       (s.fit episodes).1 = s) ∧
    (∀ (s : ClipRewardScaler) (episodes : List Episode),
       (s.fit episodes).1 = s) ∧
    (∀ (s : MinMaxRewardScaler) (episodes : List Episode),
       s.minimum.isSome → s.maximum.isSome → s.fit episodes = some s) ∧
    (∀ (s : StandardRewardScaler) (sqrtFn : ℚ → ℚ)
       (episodes : List Episode),
       s.mean.isSome → s.std.isSome → s.fit sqrtFn episodes = some s) ∧
    (∀ (s s2 : MinMaxRewardScaler) (e1 e2 : List Episode),
       s.fit e1 = some s2 → s2.fit e2 = some s2) ∧
    (∀ (s s2 : StandardRewardScaler) (f1 f2 : ℚ → ℚ)
       (e1 e2 : List Episode),
       s.fit f1 e1 = some s2 → s2.fit f2 e2 = some s2) := by
  have hmm : ∀ (s : MinMaxRewardScaler) (episodes : List Episode),
      s.minimum.isSome → s.maximum.isSome → s.fit episodes = some s := by
    intro s episodes h1 h2
    simp [MinMaxRewardScaler.fit, h1, h2]
  have hst : ∀ (s : StandardRewardScaler) (sqrtFn : ℚ → ℚ)
      (episodes : List Episode),
      s.mean.isSome → s.std.isSome → s.fit sqrtFn episodes = some s := by
    intro s sqrtFn episodes h1 h2
    simp [StandardRewardScaler.fit, h1, h2]
  refine ⟨fun s episodes => rfl, fun s episodes => rfl, hmm, hst, ?_, ?_⟩
  · intro s s2 e1 e2 hfit
    rw [MinMaxRewardScaler.fit] at hfit
    split at hfit
    · cases hfit
      next h =>
        exact hmm _ _ (Bool.and_elim_left h) (Bool.and_elim_right h)
    · dsimp only at hfit
      split at hfit
      · cases hfit
        exact hmm _ _ rfl rfl
      · cases hfit
  · intro s s2 f1 f2 e1 e2 hfit
    rw [StandardRewardScaler.fit] at hfit
    split at hfit
    · cases hfit
      next h =>
        exact hst _ _ _ (Bool.and_elim_left h) (Bool.and_elim_right h)
    · dsimp only at hfit
      split at hfit
      · cases hfit
      · cases hfit
        exact hst _ _ _ rfl rfl

/-- C4 witness: `fit` on already-parameterized concrete instances is a
no-op. -/
theorem C4_fit_idempotent_witness :
    MinMaxRewardScaler.fit ⟨some 0, some 10, 1⟩ [[0, 5]] =
      some ⟨some 0, some 10, 1⟩ ∧
    StandardRewardScaler.fit ⟨some 2, some 3, 1/1000, 1⟩ (fun q => q)
      [[0, 5]] = some ⟨some 2, some 3, 1/1000, 1⟩ ∧
    MinMaxRewardScaler.fit ⟨some (-2), some 7, 1⟩ [[0, 100]] =
      some ⟨some (-2), some 7, 1⟩ :=
  ⟨C4_fit_idempotent.2.2.1 ⟨some 0, some 10, 1⟩ [[0, 5]] (by decide)
      (by decide),
   C4_fit_idempotent.2.2.2.1 ⟨some 2, some 3, 1/1000, 1⟩ (fun q => q)
      [[0, 5]] (by decide) (by decide),
   C4_fit_idempotent.2.2.2.2.1 ⟨none, none, 1⟩ ⟨some (-2), some 7, 1⟩
      [[0, 3, -2], [0, 7]] [[0, 100]] (by decide)⟩

/-- C5: for Min-Max and Standardize, `transform` hits the assertion failure
exactly when one of the two required statistics is unset; with both set the
assertion branch is unreachable and `transform` produces a value. -/
theorem C5_transform_precondition :
    (∀ (s : MinMaxRewardScaler) (r : ℚ),
       s.transform r = none ↔ s.minimum = none ∨ s.maximum = none) ∧
    (∀ (s : StandardRewardScaler) (r : ℚ),
       s.transform r = none ↔ s.mean = none ∨ s.std = none) := by
  constructor
  · intro s r
    rcases s with ⟨mn, mx, mult⟩
    cases mn <;> cases mx <;> simp [MinMaxRewardScaler.transform]
  · intro s r
    rcases s with ⟨mu, sd, eps, mult⟩
    cases mu <;> cases sd <;> simp [StandardRewardScaler.transform]

/-- C6: Clip `transform` is `multiplier * clamp(r, low, high)` and
`reverse_transform` is `r / multiplier` (clipping is not undone); with
`low = -1`, `high = 1`, `multiplier = 2` the transform maps `5 ↦ 2`,
`-5 ↦ -2` and `1/2 ↦ 1`. -/
theorem C6_clip_transform :
    (∀ (low high : Option ℚ) (m r : ℚ),
       (ClipRewardScaler.init low high m).transform r =
         m * clampOpt r low high) ∧
    (∀ (low high : Option ℚ) (m r : ℚ),
       (ClipRewardScaler.init low high m).reverse_transform r = r / m) ∧
    (ClipRewardScaler.init (some (-1)) (some 1) 2).transform 5 = 2 ∧
    (ClipRewardScaler.init (some (-1)) (some 1) 2).transform (-5) = -2 ∧
    (ClipRewardScaler.init (some (-1)) (some 1) 2).transform (1/2) = 1 := by
  refine ⟨fun low high m r => rfl, fun low high m r => rfl, ?_, ?_, ?_⟩ <;>
    norm_num [ClipRewardScaler.init, ClipRewardScaler.transform, clampOpt]

/-- C7: for each of the four strategies with identical parameters, the
tensor-oriented `transform` and the plain-array `transform_numpy` agree
element-wise on identical input values (the parameters must be set, since
both entry points fail identically otherwise). -/
theorem C7_transform_numpy_agrees :
    (∀ (s : MultiplyRewardScaler) (m : ℚ) (rs : List ℚ),
       s.multiplier = some m → s.transform_numpy rs = rs.mapM s.transform) ∧
    (∀ (s : ClipRewardScaler) (rs : List ℚ),
       s.transform_numpy rs = rs.map s.transform) ∧
    (∀ (s : MinMaxRewardScaler) (mn mx : ℚ) (rs : List ℚ),
       s.minimum = some mn → s.maximum = some mx →
       s.transform_numpy rs = rs.mapM s.transform) ∧
    (∀ (s : StandardRewardScaler) (mu sd : ℚ) (rs : List ℚ),
       s.mean = some mu → s.std = some sd →
       s.transform_numpy rs = rs.mapM s.transform) := by
  refine ⟨?_, fun s rs => rfl, ?_, ?_⟩
  · intro s m rs hm
    rcases s with ⟨mo⟩
    cases hm
    rw [show (MultiplyRewardScaler.mk (some m)).transform =
          fun r => some (m * r) from rfl, mapM_option_of_map]
    rfl
  · intro s mn mx rs h1 h2
    rcases s with ⟨mno, mxo, mult⟩
    cases h1
    cases h2
    rw [show (⟨some mn, some mx, mult⟩ : MinMaxRewardScaler).transform =
          fun r => some (mult * (r - mn) / (mx - mn)) from rfl,
        mapM_option_of_map]
    rfl
  · intro s mu sd rs h1 h2
    rcases s with ⟨muo, sdo, eps, mult⟩
    cases h1
    cases h2
    rw [show (⟨some mu, some sd, eps, mult⟩ : StandardRewardScaler).transform =
          fun r => some (mult * (r - mu) / (sd + eps)) from rfl,
        mapM_option_of_map]
    rfl

/-- C7 witness: agreement of the two entry points at concrete parameterized
instances and inputs. -/
theorem C7_transform_numpy_agrees_witness :
    MultiplyRewardScaler.transform_numpy ⟨some 10⟩ [1, 2] =
      List.mapM (MultiplyRewardScaler.transform ⟨some 10⟩) [1, 2] ∧
    ClipRewardScaler.transform_numpy ⟨some (-1), some 1, 2⟩ [5, -5] =
      List.map (ClipRewardScaler.transform ⟨some (-1), some 1, 2⟩) [5, -5] ∧
    MinMaxRewardScaler.transform_numpy ⟨some 0, some 10, 1⟩ [5, 10] =
      List.mapM (MinMaxRewardScaler.transform ⟨some 0, some 10, 1⟩) [5, 10] ∧
    StandardRewardScaler.transform_numpy ⟨some 2, some 3, 1/1000, 1⟩ [2] =
      List.mapM (StandardRewardScaler.transform ⟨some 2, some 3, 1/1000, 1⟩)
        [2] :=
  ⟨C7_transform_numpy_agrees.1 ⟨some 10⟩ 10 [1, 2] rfl,
   C7_transform_numpy_agrees.2.1 ⟨some (-1), some 1, 2⟩ [5, -5],
   C7_transform_numpy_agrees.2.2.1 ⟨some 0, some 10, 1⟩ 0 10 [5, 10] rfl rfl,
   C7_transform_numpy_agrees.2.2.2 ⟨some 2, some 3, 1/1000, 1⟩ 2 3 [2]
     rfl rfl⟩

/-- C8: `fit_with_env` fails with the `NotImplementedError`-style rejection
for every strategy instance and every environment; it never succeeds and
therefore never produces a fitted state. -/
theorem C8_fit_with_env_unsupported :
    ∀ (s : RewardScalerInst) (env : GymEnv),
      fit_with_env s env =
        Except.error "Please initialize with dataset." ∧
      ∀ s2, fit_with_env s env ≠ Except.ok s2 :=
  fun s env => ⟨rfl, fun s2 h => Except.noConfusion h⟩

/-- C9: registering a class whose `TYPE` is already a registry key fails
(the existing entry is not overwritten), registering a fresh `TYPE` appends
exactly that one entry, and registration preserves key uniqueness. -/
theorem C9_register_unique :
    (∀ (registry : Registry) (cls : ScalerClass),
       cls.TYPE ∈ registry.map Prod.fst →
       register_reward_scaler registry cls = none) ∧
    (∀ (registry : Registry) (cls : ScalerClass),
       cls.TYPE ∉ registry.map Prod.fst →
       register_reward_scaler registry cls =
         some (registry ++ [(cls.TYPE, cls)])) ∧
    (∀ (registry r2 : Registry) (cls : ScalerClass),
       (registry.map Prod.fst).Nodup →
       register_reward_scaler registry cls = some r2 →
       (r2.map Prod.fst).Nodup) := by
  have hmem : ∀ (registry : Registry) (cls : ScalerClass),
      (registry.any (fun p => p.1 == cls.TYPE)) = true ↔
        cls.TYPE ∈ registry.map Prod.fst := by
    intro registry cls
    simp only [List.any_eq_true, beq_iff_eq, List.mem_map]
  have hpos : ∀ (registry : Registry) (cls : ScalerClass),
      cls.TYPE ∈ registry.map Prod.fst →
      register_reward_scaler registry cls = none := by
    intro registry cls h
    simp [register_reward_scaler, (hmem registry cls).mpr h]
  have hneg : ∀ (registry : Registry) (cls : ScalerClass),
      cls.TYPE ∉ registry.map Prod.fst →
      register_reward_scaler registry cls =
        some (registry ++ [(cls.TYPE, cls)]) := by
    intro registry cls h
    have : (registry.any (fun p => p.1 == cls.TYPE)) = false := by
      rw [Bool.eq_false_iff]
      intro hc
      exact h ((hmem registry cls).mp hc)
    simp [register_reward_scaler, this]
  refine ⟨hpos, hneg, ?_⟩
  intro registry r2 cls hnd hreg
  by_cases hm : cls.TYPE ∈ registry.map Prod.fst
  · rw [hpos registry cls hm] at hreg
    cases hreg
  · rw [hneg registry cls hm] at hreg
    cases hreg
    simp only [List.map_append, List.map_cons, List.map_nil]
    rw [List.nodup_append]
    exact ⟨hnd, List.nodup_singleton _, by simpa using fun h => hm h⟩

/-- C9 witness: registering `MultiplyRewardScaler` a second time on the
loaded registry fails, while registering it on the empty registry adds
exactly its entry. -/
theorem C9_register_unique_witness :
    register_reward_scaler loadedRegistry .multiplyCls = none ∧
    register_reward_scaler [] .multiplyCls =
      some [("multiply", ScalerClass.multiplyCls)] ∧
    ((loadedRegistry ++
        [(ScalerClass.base.TYPE, ScalerClass.base)]).map Prod.fst).Nodup :=
  ⟨C9_register_unique.1 loadedRegistry .multiplyCls (by decide),
   C9_register_unique.2.1 [] .multiplyCls (by decide),
   C9_register_unique.2.2 loadedRegistry _ .base (by decide)
     (C9_register_unique.2.1 loadedRegistry .base (by decide))⟩

/-- C10: for Min-Max and Standardize the two statistical parameters are
always both set or both unset. Construction with only one of the pair
supplied silently discards it and leaves both unset, so `transform` fails
before a fit and a subsequent `fit` computes both from data; construction
and `fit` preserve the both-or-neither invariant. -/
theorem C10_both_or_neither :
    (∀ (mn mult : ℚ),
       MinMaxRewardScaler.init none (some mn) none mult =
         some ⟨none, none, mult⟩) ∧
    (∀ (mx mult : ℚ),
       MinMaxRewardScaler.init none none (some mx) mult =
         some ⟨none, none, mult⟩) ∧
    (∀ (sqrtFn : ℚ → ℚ) (mu eps mult : ℚ),
       StandardRewardScaler.init sqrtFn none (some mu) none eps mult =
         some ⟨none, none, eps, mult⟩) ∧
    (∀ (sqrtFn : ℚ → ℚ) (sd eps mult : ℚ),
       StandardRewardScaler.init sqrtFn none none (some sd) eps mult =
         some ⟨none, none, eps, mult⟩) ∧
    (∀ (dataset : Option (List Episode)) (mn mx : Option ℚ) (mult : ℚ)
       (s : MinMaxRewardScaler),
       MinMaxRewardScaler.init dataset mn mx mult = some s →
       s.minimum.isSome = s.maximum.isSome) ∧
    (∀ (sqrtFn : ℚ → ℚ) (dataset : Option (List Episode))
       (mu sd : Option ℚ) (eps mult : ℚ) (s : StandardRewardScaler),
       StandardRewardScaler.init sqrtFn dataset mu sd eps mult = some s →
       s.mean.isSome = s.std.isSome) ∧
    (∀ (s s2 : MinMaxRewardScaler) (episodes : List Episode),
       s.fit episodes = some s2 →
       s2.minimum.isSome = s2.maximum.isSome) ∧
    (∀ (s s2 : StandardRewardScaler) (sqrtFn : ℚ → ℚ)
       (episodes : List Episode),
       s.fit sqrtFn episodes = some s2 →
       s2.mean.isSome = s2.std.isSome) ∧
    (∀ (mn mult r : ℚ) (s : MinMaxRewardScaler),
       MinMaxRewardScaler.init none (some mn) none mult = some s →
       s.transform r = none) ∧
    (∀ (sqrtFn : ℚ → ℚ) (mu eps mult r : ℚ) (s : StandardRewardScaler),
       StandardRewardScaler.init sqrtFn none (some mu) none eps mult =
         some s → s.transform r = none) ∧
    (∀ (mult : ℚ) (episodes : List Episode),
       tailRewards episodes ≠ [] →
       ∃ s2 : MinMaxRewardScaler,
         MinMaxRewardScaler.fit ⟨none, none, mult⟩ episodes = some s2 ∧
         s2.minimum.isSome ∧ s2.maximum.isSome) ∧
    (∀ (sqrtFn : ℚ → ℚ) (eps mult : ℚ) (episodes : List Episode),
       tailRewards episodes ≠ [] →
       ∃ s2 : StandardRewardScaler,
         StandardRewardScaler.fit ⟨none, none, eps, mult⟩ sqrtFn episodes =
           some s2 ∧ s2.mean.isSome ∧ s2.std.isSome) := by
  have hfit_mm : ∀ (s s2 : MinMaxRewardScaler) (episodes : List Episode),
      s.fit episodes = some s2 →
      s2.minimum.isSome = s2.maximum.isSome := by
    intro s s2 episodes hfit
    rw [MinMaxRewardScaler.fit] at hfit
    split at hfit
    · cases hfit
      next h => rw [Bool.and_elim_left h, Bool.and_elim_right h]
    · dsimp only at hfit
      split at hfit
      · cases hfit
        rfl
      · cases hfit
  have hfit_st : ∀ (s s2 : StandardRewardScaler) (sqrtFn : ℚ → ℚ)
      (episodes : List Episode),
      s.fit sqrtFn episodes = some s2 →
      s2.mean.isSome = s2.std.isSome := by
    intro s s2 sqrtFn episodes hfit
    rw [StandardRewardScaler.fit] at hfit
    split at hfit
    · cases hfit
      next h => rw [Bool.and_elim_left h, Bool.and_elim_right h]
    · dsimp only at hfit
      split at hfit
      · cases hfit
      · cases hfit
        rfl
  refine ⟨fun mn mult => rfl, fun mx mult => rfl,
    fun sqrtFn mu eps mult => rfl, fun sqrtFn sd eps mult => rfl,
    ?_, ?_, hfit_mm, hfit_st, ?_, ?_, ?_, ?_⟩
  · intro dataset mn mx mult s h
    cases dataset with
    | some ds => exact hfit_mm _ _ _ h
    | none =>
      cases mn <;> cases mx <;>
        simp only [MinMaxRewardScaler.init, Option.some.injEq] at h <;>
        (subst h; rfl)
  · intro sqrtFn dataset mu sd eps mult s h
    cases dataset with
    | some ds => exact hfit_st _ _ _ _ h
    | none =>
      cases mu <;> cases sd <;>
        simp only [StandardRewardScaler.init, Option.some.injEq] at h <;>
        (subst h; rfl)
  · intro mn mult r s h
    simp only [MinMaxRewardScaler.init, Option.some.injEq] at h
    subst h
    rfl
  · intro sqrtFn mu eps mult r s h
    simp only [StandardRewardScaler.init, Option.some.injEq] at h
    subst h
    rfl
  · intro mult episodes hne
    obtain ⟨a, as, ha⟩ := List.exists_cons_of_ne_nil hne
    refine ⟨⟨some (as.foldl min a), some (as.foldl max a), mult⟩, ?_, rfl, rfl⟩
    simp only [MinMaxRewardScaler.fit, Option.isSome_none, Bool.false_and,
      Bool.false_eq_true, if_false,
      show (tailRewards episodes).min? = some (as.foldl min a) from
        by rw [ha]; rfl,
      show (tailRewards episodes).max? = some (as.foldl max a) from
        by rw [ha]; rfl]
  · intro sqrtFn eps mult episodes hne
    obtain ⟨a, as, ha⟩ := List.exists_cons_of_ne_nil hne
    simp only [StandardRewardScaler.fit, Option.isSome_none, Bool.false_and,
      Bool.false_eq_true, if_false, ha]
    exact ⟨_, rfl, rfl, rfl⟩

/-- C10 witness: construction with only one statistic supplied, at concrete
values, leaves both unset, makes `transform` fail, and a subsequent `fit`
sets both. -/
theorem C10_both_or_neither_witness :
    MinMaxRewardScaler.init none (some 3) none 1 =
      some ⟨none, none, 1⟩ ∧
    StandardRewardScaler.init (fun q => q) none (some 2) none (1/1000) 1 =
      some ⟨none, none, 1/1000, 1⟩ ∧
    MinMaxRewardScaler.transform ⟨none, none, 1⟩ 5 = none ∧
    (∃ s2 : MinMaxRewardScaler,
      MinMaxRewardScaler.fit ⟨none, none, 1⟩ [[0, 3, -2], [0, 7]] =
        some s2 ∧ s2.minimum.isSome ∧ s2.maximum.isSome) :=
  ⟨C10_both_or_neither.1 3 1,
   C10_both_or_neither.2.2.1 (fun q => q) 2 (1/1000) 1,
   C10_both_or_neither.2.2.2.2.2.2.2.2.1 3 1 5 ⟨none, none, 1⟩
     (C10_both_or_neither.1 3 1),
   C10_both_or_neither.2.2.2.2.2.2.2.2.2.2.1 1 [[0, 3, -2], [0, 7]]
     (by decide)⟩
